import Mathlib

/-!
Shallow embedding of the witness `run` command pipeline (`cmd/run.go`
together with `options/run.go`): signer resolution, attested execution,
envelope serialization and local write, optional Rekor transparency-log
submission, and optional chunked upload to the Archivist artifact store.

External collaborators (`loadSigners`, `loadOutfile`, `witness.Run`,
`json.Marshal`, the Rekor client, the gRPC Archivist stream) live outside
the observed source; they are modelled as oracle fields of environment
records, and the pipeline logic itself is translated from `runRun` and
`storeInArchivist`. Observable behaviour is captured as a result value, a
trace of events (log lines, collaborator invocation, writes, network
calls) and the contents written to the output sink.
-/

namespace WitnessRun

/-- Opaque signer identity (a `cryptoutil.Signer` produced by `loadSigners`). -/
abbrev Signer := Nat

/-- Opaque verifier handle (result of `signer.Verifier()`). -/
abbrev Verifier := Nat

/-- Opaque attestation run result (`result.SignedEnvelope` from `witness.Run`). -/
abbrev Envelope := Nat

/-- The constant `chunkSize = 64 * 1024` from cmd/run.go. -/
def chunkSize : Nat := 64 * 1024

/-- Observable events of a run, in the order the pipeline performs them:
log lines (`log.Error`), the invocation of the external `witness.Run`
collaborator, the write to the output sink, and the network calls of the
two publishing destinations. -/
inductive Event where
  | logError (msg : String)
  | execCollaborator
  | writeSink (bytes : List Nat)
  | rekorNewClient (server : String)
  | rekorStore (payload pubkey : List Nat)
  | archivistDial (url : String)
  | archivistStoreOpen
  | archivistSend (chunk : List Nat)
  | archivistCloseAndRecv
  deriving DecidableEq, Repr

/-- Network-touching events: Rekor client construction/submission and all
Archivist stream activity. -/
def Event.isNetwork : Event → Bool
  | .rekorNewClient _ => true
  | .rekorStore _ _ => true
  | .archivistDial _ => true
  | .archivistStoreOpen => true
  | .archivistSend _ => true
  | .archivistCloseAndRecv => true
  | _ => false

/-- Archivist (artifact-store) events. -/
def Event.isArchivist : Event → Bool
  | .archivistDial _ => true
  | .archivistStoreOpen => true
  | .archivistSend _ => true
  | .archivistCloseAndRecv => true
  | _ => false

/-- The struct `ArchivistOptions` from options/run.go: the boolean enable flag and the
server URL (the flag definition names the URL field `Url`; `runRun` reads it
as `.Server`). -/
structure ArchivistOptions where
  enable : Bool
  server : String

/-- The struct `RunOptions` from options/run.go, restricted to the fields `runRun`
reads. `KeyOptions` is opaque: its only use is as the argument of the
external `loadSigners`, whose outcome the environment provides directly. -/
structure RunOptions where
  archivistOptions : ArchivistOptions
  workingDir : String
  attestations : List String
  outFilePath : String
  stepName : String
  tracing : Bool
  rekorServer : String

/-- Oracle for the Archivist upload collaborators used by
`storeInArchivist`: `grpc.Dial`, the ignored error of `client.Store`, the
per-frame outcome of `stream.Send`, and `stream.CloseAndRecv` (returning
the gitoid). -/
structure ArchivistEnv where
  dial : String → Except String Unit
  storeOpenErr : Option String
  sendErr : Nat → Option String
  closeAndRecv : Except String String

/-- Oracle for every external collaborator `runRun` calls, in source
order: `loadSigners` (constructed signers and construction errors),
`loadOutfile`, `witness.Run` (step name, signer, tracing, command args,
attestor names, working dir), `json.Marshal` of the signed envelope,
`out.Write`, `signer.Verifier()`, `verifier.Bytes()`, `rekor.New`,
`rc.StoreArtifact` (returning the entry location), and the Archivist
oracles. -/
structure RunEnv where
  loadSigners : List Signer × List String
  loadOutfile : String → Except String Unit
  witnessRun : String → Signer → Bool → List String → List String → String →
    Except String Envelope
  marshal : Envelope → Except String (List Nat)
  writeOut : List Nat → Except String Unit
  verifier : Signer → Except String Verifier
  verifierBytes : Verifier → Except String (List Nat)
  rekorNew : String → Except String Unit
  rekorStore : List Nat → List Nat → Except String String
  archivist : ArchivistEnv

/-- Outcome of a run: the returned error (or success), the event trace and
the byte strings written to the output sink. -/
structure RunOutcome where
  result : Except String Unit
  events : List Event
  sink : List (List Nat)

/-- The frame sequence produced by the
`for curr := 0; curr < size; curr += chunkSize` loop in
`storeInArchivist`: the frame at offset `curr` is `signedBytes[curr:]`
when `curr+chunkSize >= size`, else `signedBytes[curr : curr+chunkSize]`.
The loop is embedded structurally with an explicit iteration bound
(`fuel`); every iteration advances `curr` by `chunkSize ≥ 1`, so
`signedBytes.length - curr` iterations always suffice and the bound never
cuts the loop short (see `chunkFramesF_fuel`). -/
def chunkFramesF (signedBytes : List Nat) : Nat → Nat → List (List Nat)
  | 0, _ => []
  | fuel + 1, curr =>
    if curr < signedBytes.length then
      (if signedBytes.length ≤ curr + chunkSize then signedBytes.drop curr
       else (signedBytes.drop curr).take chunkSize)
        :: chunkFramesF signedBytes fuel (curr + chunkSize)
    else []

/-- The frame sequence of the loop from offset `curr`, with a sufficient
iteration bound supplied. -/
def chunkFrames (signedBytes : List Nat) (curr : Nat) : List (List Nat) :=
  chunkFramesF signedBytes (signedBytes.length - curr) curr

/-- The frames of a whole payload (loop started at `curr = 0`). -/
def chunks (signedBytes : List Nat) : List (List Nat) :=
  chunkFrames signedBytes 0

/-- The send loop of `storeInArchivist`: computes each frame exactly as the
source loop does and calls `stream.Send` on it (`send idx` is the outcome
of the `idx`-th send); a failing send aborts the loop and its error is
returned, otherwise the loop runs to completion. Records the frames sent
as events. Embedded with the same iteration bound as `chunkFramesF`. -/
def storeLoopF (send : Nat → Option String) (signedBytes : List Nat) :
    Nat → Nat → Nat → Option String × List Event
  | 0, _, _ => (none, [])
  | fuel + 1, curr, idx =>
    if curr < signedBytes.length then
      let chunkBytes :=
        if signedBytes.length ≤ curr + chunkSize then signedBytes.drop curr
        else (signedBytes.drop curr).take chunkSize
      match send idx with
      | some e => (some e, [Event.archivistSend chunkBytes])
      | none =>
        let rest := storeLoopF send signedBytes fuel (curr + chunkSize) (idx + 1)
        (rest.1, Event.archivistSend chunkBytes :: rest.2)
    else (none, [])

/-- The send loop from offset `curr` and send counter `idx`, with a
sufficient iteration bound supplied. -/
def storeLoop (send : Nat → Option String) (signedBytes : List Nat)
    (curr idx : Nat) : Option String × List Event :=
  storeLoopF send signedBytes (signedBytes.length - curr) curr idx

/-- The function `storeInArchivist` from cmd/run.go: dial the server (error returned),
open the client stream (`stream, err := client.Store(ctx)` — this `err` is
bound but never read, modelled by the dead binding of `storeOpenErr`), send
all frames, then `CloseAndRecv`, returning the gitoid. -/
def storeInArchivist (opts : ArchivistOptions) (signedBytes : List Nat)
    (env : ArchivistEnv) : Except String String × List Event :=
  match env.dial opts.server with
  | Except.error e => (Except.error e, [Event.archivistDial opts.server])
  | Except.ok _ =>
    let _openErr := env.storeOpenErr
    match storeLoop env.sendErr signedBytes 0 0 with
    | (some e, evs) =>
      (Except.error e,
        Event.archivistDial opts.server :: Event.archivistStoreOpen :: evs)
    | (none, evs) =>
      match env.closeAndRecv with
      | Except.error e =>
        (Except.error e,
          (Event.archivistDial opts.server :: Event.archivistStoreOpen :: evs)
            ++ [Event.archivistCloseAndRecv])
      | Except.ok gitoid =>
        (Except.ok gitoid,
          (Event.archivistDial opts.server :: Event.archivistStoreOpen :: evs)
            ++ [Event.archivistCloseAndRecv])

/-- The Rekor block of `runRun` (entered only when `rekorServer != ""`):
get the verifier, its public key bytes, construct the client, store the
artifact; each failure is wrapped exactly as in the source. -/
def rekorPublish (env : RunEnv) (rekorServer : String) (signer : Signer)
    (signedBytes : List Nat) : Except String Unit × List Event :=
  match env.verifier signer with
  | Except.error e => (Except.error ("failed to get verifier from signer: " ++ e), [])
  | Except.ok v =>
    match env.verifierBytes v with
    | Except.error e => (Except.error ("failed to get bytes from verifier: " ++ e), [])
    | Except.ok pubKeyBytes =>
      match env.rekorNew rekorServer with
      | Except.error e =>
        (Except.error ("failed to get initialize Rekor client: " ++ e),
          [Event.rekorNewClient rekorServer])
      | Except.ok _ =>
        match env.rekorStore signedBytes pubKeyBytes with
        | Except.error e =>
          (Except.error ("failed to store artifact in rekor: " ++ e),
            [Event.rekorNewClient rekorServer,
             Event.rekorStore signedBytes pubKeyBytes])
        | Except.ok _loc =>
          (Except.ok (),
            [Event.rekorNewClient rekorServer,
             Event.rekorStore signedBytes pubKeyBytes])

/-- The Archivist block of `runRun` (entered only when
`ro.ArchivistOptions.Server != ""`): call `storeInArchivist` and wrap its
error as in the source. Note the `Enable` flag is not consulted. -/
def archivistStep (ro : RunOptions) (env : RunEnv) (signedBytes : List Nat) :
    Except String Unit × List Event :=
  if ro.archivistOptions.server ≠ "" then
    match storeInArchivist ro.archivistOptions signedBytes env.archivist with
    | (Except.error e, evs) =>
      (Except.error ("failed to store artifact in archivist: " ++ e), evs)
    | (Except.ok _gitoid, evs) => (Except.ok (), evs)
  else (Except.ok (), [])

/-- The function `runRun` from cmd/run.go: load signers (any construction error is
logged and the run fails with "failed to load signers"); enforce exactly
one signer; open the out file; call `witness.Run`; marshal the signed
envelope; write it to the sink; then, conditionally and in order, publish
to Rekor (early return on failure) and to Archivist. -/
def runRun (ro : RunOptions) (args : List String) (env : RunEnv) : RunOutcome :=
  let signers := env.loadSigners.1
  let errors := env.loadSigners.2
  if errors.length > 0 then
    { result := Except.error "failed to load signers",
      events := errors.map Event.logError, sink := [] }
  else if signers.length > 1 then
    { result := Except.error "only one signer is supported",
      events := [Event.logError "only one signer is supported"], sink := [] }
  else if signers.length = 0 then
    { result := Except.error "no signers found",
      events := [Event.logError "no signers found"], sink := [] }
  else
    let signer := signers.headD 0
    match env.loadOutfile ro.outFilePath with
    | Except.error e =>
      { result := Except.error ("failed to open out file: " ++ e),
        events := [], sink := [] }
    | Except.ok _ =>
      match env.witnessRun ro.stepName signer ro.tracing args ro.attestations
          ro.workingDir with
      | Except.error e =>
        { result := Except.error e, events := [Event.execCollaborator], sink := [] }
      | Except.ok result =>
        match env.marshal result with
        | Except.error e =>
          { result := Except.error ("failed to marshal envelope: " ++ e),
            events := [Event.execCollaborator], sink := [] }
        | Except.ok signedBytes =>
          match env.writeOut signedBytes with
          | Except.error e =>
            { result := Except.error ("failed to write envelope to out file: " ++ e),
              events := [Event.execCollaborator, Event.writeSink signedBytes],
              sink := [] }
          | Except.ok _ =>
            let baseEvents := [Event.execCollaborator, Event.writeSink signedBytes]
            match (if ro.rekorServer ≠ "" then
                     rekorPublish env ro.rekorServer signer signedBytes
                   else (Except.ok (), [])) with
            | (Except.error e, revs) =>
              { result := Except.error e, events := baseEvents ++ revs,
                sink := [signedBytes] }
            | (Except.ok _, revs) =>
              match archivistStep ro env signedBytes with
              | (Except.error e, aevs) =>
                { result := Except.error e, events := baseEvents ++ revs ++ aevs,
                  sink := [signedBytes] }
              | (Except.ok _, aevs) =>
                { result := Except.ok (), events := baseEvents ++ revs ++ aevs,
                  sink := [signedBytes] }

/-! ### Concrete environments and configurations for instance checks -/

/-- An Archivist oracle where every collaborator call succeeds. -/
def archOk : ArchivistEnv :=
  { dial := fun _ => Except.ok ()
    storeOpenErr := none
    sendErr := fun _ => none
    closeAndRecv := Except.ok "gitoid-1" }

/-- An environment where every collaborator call succeeds: one signer, no
construction errors, envelope `5` marshalling to bytes `[1, 2, 3]`. -/
def envOk : RunEnv :=
  { loadSigners := ([7], [])
    loadOutfile := fun _ => Except.ok ()
    witnessRun := fun _ _ _ _ _ _ => Except.ok 5
    marshal := fun _ => Except.ok [1, 2, 3]
    writeOut := fun _ => Except.ok ()
    verifier := fun _ => Except.ok 9
    verifierBytes := fun _ => Except.ok [4, 5]
    rekorNew := fun _ => Except.ok ()
    rekorStore := fun _ _ => Except.ok "rekor-loc"
    archivist := archOk }

/-- Three signer sources: two fail to construct, one succeeds. -/
def envTwoFailOne : RunEnv :=
  { envOk with loadSigners := ([7], ["bad source a", "bad source b"]) }

/-- A single signer source that fails to construct: zero signers, one error. -/
def envAllFail : RunEnv :=
  { envOk with loadSigners := ([], ["boom"]) }

/-- No signer sources at all: zero signers, zero errors. -/
def envNoSigners : RunEnv :=
  { envOk with loadSigners := ([], []) }

/-- Two successfully constructed signers. -/
def envTwoSigners : RunEnv :=
  { envOk with loadSigners := ([7, 8], []) }

/-- Everything succeeds except the Rekor artifact submission. -/
def envRekorFail : RunEnv :=
  { envOk with rekorStore := fun _ _ => Except.error "rekor down" }

/-- Everything succeeds except opening the output file. -/
def envBadOutfile : RunEnv :=
  { envOk with loadOutfile := fun _ => Except.error "no such dir" }

/-- Configuration with both publishing destinations disabled. -/
def roNoPublish : RunOptions :=
  { archivistOptions := { enable := false, server := "" }
    workingDir := ""
    attestations := ["environment", "git"]
    outFilePath := "out.json"
    stepName := "build"
    tracing := false
    rekorServer := "" }

/-- Configuration with both publishing destinations enabled. -/
def roBothPublish : RunOptions :=
  { roNoPublish with
    rekorServer := "https://rekor.example"
    archivistOptions := { enable := true, server := "https://archivist.example" } }

/-- Configuration with only the Archivist destination configured, and its
boolean enable flag left false. -/
def roArchOnly : RunOptions :=
  { roNoPublish with
    archivistOptions := { enable := false, server := "https://archivist.example" } }

/-! ### Helper lemmas about the chunking loop -/

theorem chunkSize_pos : 0 < chunkSize := by decide

theorem chunkFramesF_of_le (b : List Nat) (fuel curr : Nat) (h : b.length ≤ curr) :
    chunkFramesF b fuel curr = [] := by
  cases fuel with
  | zero => rfl
  | succ n => simp only [chunkFramesF, if_neg (by omega : ¬ curr < b.length)]

theorem chunkFramesF_fuel (b : List Nat) (f₁ f₂ curr : Nat)
    (h₁ : b.length - curr ≤ f₁) (h₂ : b.length - curr ≤ f₂) :
    chunkFramesF b f₁ curr = chunkFramesF b f₂ curr := by
  induction f₁ generalizing f₂ curr with
  | zero =>
    rw [chunkFramesF_of_le b 0 curr (by omega),
      chunkFramesF_of_le b f₂ curr (by omega)]
  | succ n ih =>
    cases f₂ with
    | zero =>
      rw [chunkFramesF_of_le b (n + 1) curr (by omega),
        chunkFramesF_of_le b 0 curr (by omega)]
    | succ m =>
      by_cases hc : curr < b.length
      · simp only [chunkFramesF, if_pos hc]
        have hcs := chunkSize_pos
        rw [ih m (curr + chunkSize) (by omega) (by omega)]
      · simp only [chunkFramesF, if_neg hc]

theorem chunkFramesF_flatten (b : List Nat) (fuel curr : Nat)
    (h : b.length - curr ≤ fuel) :
    (chunkFramesF b fuel curr).flatten = b.drop curr := by
  induction fuel generalizing curr with
  | zero =>
    rw [chunkFramesF_of_le b 0 curr (by omega),
      List.drop_eq_nil_of_le (by omega)]
    rfl
  | succ n ih =>
    by_cases hc : curr < b.length
    · simp only [chunkFramesF, if_pos hc]
      by_cases hr : b.length ≤ curr + chunkSize
      · rw [if_pos hr, chunkFramesF_of_le b n (curr + chunkSize) hr]
        simp
      · rw [if_neg hr]
        have hcs := chunkSize_pos
        rw [List.flatten_cons, ih (curr + chunkSize) (by omega)]
        have hdd : (b.drop curr).drop chunkSize = b.drop (curr + chunkSize) := by
          rw [List.drop_drop]
        rw [← hdd, List.take_append_drop]
    · rw [chunkFramesF_of_le b (n + 1) curr (by omega),
        List.drop_eq_nil_of_le (by omega)]
      rfl

theorem chunkFramesF_bounded (b : List Nat) (fuel curr : Nat) :
    ∀ c ∈ chunkFramesF b fuel curr, c.length ≤ chunkSize := by
  induction fuel generalizing curr with
  | zero =>
    intro c hmem
    exact absurd hmem (List.not_mem_nil c)
  | succ n ih =>
    by_cases hc : curr < b.length
    · simp only [chunkFramesF, if_pos hc]
      intro c hmem
      rcases List.mem_cons.mp hmem with hhd | htl
      · subst hhd
        by_cases hr : b.length ≤ curr + chunkSize
        · rw [if_pos hr]
          simp only [List.length_drop]
          omega
        · rw [if_neg hr]
          simp only [List.length_take]
          omega
      · exact ih (curr + chunkSize) c htl
    · rw [chunkFramesF_of_le b (n + 1) curr (by omega)]
      intro c hmem
      exact absurd hmem (List.not_mem_nil c)

theorem chunkFramesF_count (b : List Nat) (fuel curr : Nat)
    (h : b.length - curr ≤ fuel) :
    (chunkFramesF b fuel curr).length
      = (b.length - curr + chunkSize - 1) / chunkSize := by
  induction fuel generalizing curr with
  | zero =>
    rw [chunkFramesF_of_le b 0 curr (by omega)]
    simp only [List.length_nil, chunkSize] at h ⊢
    omega
  | succ n ih =>
    by_cases hc : curr < b.length
    · simp only [chunkFramesF, if_pos hc]
      by_cases hr : b.length ≤ curr + chunkSize
      · rw [if_pos hr, chunkFramesF_of_le b n (curr + chunkSize) hr]
        simp only [List.length_cons, List.length_nil, chunkSize] at hc hr ⊢
        omega
      · rw [if_neg hr]
        have hcs := chunkSize_pos
        simp only [List.length_cons, ih (curr + chunkSize) (by omega)]
        simp only [chunkSize] at hr ⊢
        omega
    · rw [chunkFramesF_of_le b (n + 1) curr (by omega)]
      simp only [List.length_nil, chunkSize] at hc ⊢
      omega

theorem chunkFramesF_ne_nil (b : List Nat) (fuel curr : Nat)
    (hc : curr < b.length) (hf : 1 ≤ fuel) :
    chunkFramesF b fuel curr ≠ [] := by
  cases fuel with
  | zero => omega
  | succ n => simp [chunkFramesF, if_pos hc]

theorem chunkFramesF_getLast (b : List Nat) (fuel curr : Nat)
    (h : b.length - curr ≤ fuel) :
    ∀ l, (chunkFramesF b fuel curr).getLast? = some l →
      l.length = if (b.length - curr) % chunkSize = 0 then chunkSize
                 else (b.length - curr) % chunkSize := by
  induction fuel generalizing curr with
  | zero =>
    intro l hl
    rw [chunkFramesF_of_le b 0 curr (by omega)] at hl
    exact absurd hl (by simp)
  | succ n ih =>
    intro l hl
    by_cases hc : curr < b.length
    · simp only [chunkFramesF, if_pos hc] at hl
      by_cases hr : b.length ≤ curr + chunkSize
      · rw [if_pos hr, chunkFramesF_of_le b n (curr + chunkSize) hr] at hl
        simp only [List.getLast?_singleton, Option.some.injEq] at hl
        subst hl
        simp only [List.length_drop]
        split <;> simp only [chunkSize] at * <;> omega
      · rw [if_neg hr] at hl
        have hcs := chunkSize_pos
        have hlt : curr + chunkSize < b.length := by omega
        have htail := ih (curr + chunkSize) (by omega) l
        match hfr : chunkFramesF b n (curr + chunkSize) with
        | [] =>
          exact absurd hfr (chunkFramesF_ne_nil b n (curr + chunkSize) hlt (by omega))
        | y :: ys =>
          rw [hfr, List.getLast?_cons_cons] at hl
          have hlen := htail (by rw [hfr]; exact hl)
          rw [hlen]
          have hmod : (b.length - (curr + chunkSize)) % chunkSize
              = (b.length - curr) % chunkSize := by
            simp only [chunkSize] at hr ⊢
            omega
          rw [hmod]
    · rw [chunkFramesF_of_le b (n + 1) curr (by omega)] at hl
      exact absurd hl (by simp)

theorem storeLoopF_all_ok (send : Nat → Option String) (b : List Nat)
    (hsend : ∀ i, send i = none) (fuel curr idx : Nat) :
    storeLoopF send b fuel curr idx
      = (none, (chunkFramesF b fuel curr).map Event.archivistSend) := by
  induction fuel generalizing curr idx with
  | zero => rfl
  | succ n ih =>
    by_cases hc : curr < b.length
    · simp only [storeLoopF, chunkFramesF, if_pos hc, hsend idx, List.map_cons]
      rw [ih (curr + chunkSize) (idx + 1)]
    · simp only [storeLoopF, chunkFramesF, if_neg hc, List.map_nil]

/-! ### Claim theorems -/

/-- C4: chunk partitioning round-trip — for every payload, the upload
partitions it into consecutive frames of at most `chunkSize = 65536` bytes
in original order with no overlap and no gaps (their concatenation in send
order is the payload), the last frame holds `length % chunkSize` bytes (or
the full `chunkSize` when evenly divisible), and when every send succeeds
the frames sent are exactly these frames, `⌈length / chunkSize⌉` of them
(`0` when the payload is empty). -/
theorem chunk_partition_roundtrip (b : List Nat) :
    (chunks b).flatten = b ∧
    (∀ c ∈ chunks b, c.length ≤ chunkSize) ∧
    (chunks b).length = (b.length + chunkSize - 1) / chunkSize ∧
    (∀ l, (chunks b).getLast? = some l →
        l.length = if b.length % chunkSize = 0 then chunkSize
                   else b.length % chunkSize) ∧
    (∀ send : Nat → Option String, (∀ i, send i = none) →
        storeLoop send b 0 0 = (none, (chunks b).map Event.archivistSend)) := by
  refine ⟨?_, ?_, ?_, ?_, ?_⟩
  · have h := chunkFramesF_flatten b (b.length - 0) 0 (Nat.le_refl _)
    simpa [chunks, chunkFrames] using h
  · intro c hc
    exact chunkFramesF_bounded b (b.length - 0) 0 c hc
  · have h := chunkFramesF_count b (b.length - 0) 0 (Nat.le_refl _)
    simpa [chunks, chunkFrames] using h
  · intro l hl
    have h := chunkFramesF_getLast b (b.length - 0) 0 (Nat.le_refl _) l
      (by simpa [chunks, chunkFrames] using hl)
    simpa using h
  · intro send hsend
    have h := storeLoopF_all_ok send b hsend (b.length - 0) 0 0
    simpa [chunks, chunkFrames, storeLoop] using h

/-- C4 witness: concrete instance on the payload `[1, 2, 3]` with an
always-succeeding send oracle. -/
theorem chunk_partition_roundtrip_witness :
    (chunks [1, 2, 3]).flatten = [1, 2, 3] ∧
    storeLoop (fun _ => none) [1, 2, 3] 0 0
      = (none, (chunks [1, 2, 3]).map Event.archivistSend) :=
  ⟨(chunk_partition_roundtrip [1, 2, 3]).1,
   (chunk_partition_roundtrip [1, 2, 3]).2.2.2.2 (fun _ => none) (fun _ => rfl)⟩

/-- C9: the error returned when opening the client-streaming session
(`stream, err := client.Store(ctx)`) is never checked: the outcome of
`storeInArchivist` is entirely independent of it, so an open failure is
never itself returned to the caller. -/
theorem store_open_error_ignored (opts : ArchivistOptions) (b : List Nat)
    (env : ArchivistEnv) (e : Option String) :
    storeInArchivist opts b { env with storeOpenErr := e }
      = storeInArchivist opts b env := rfl

/-- C7: a zero-length payload still opens the session, sends zero frames,
closes the send side and returns exactly the `CloseAndRecv` outcome; the
partitioning logic does not treat the empty payload as an error. -/
theorem empty_payload_upload (opts : ArchivistOptions) (env : ArchivistEnv)
    (hdial : env.dial opts.server = Except.ok ()) :
    (storeInArchivist opts [] env).2
      = [Event.archivistDial opts.server, Event.archivistStoreOpen,
         Event.archivistCloseAndRecv] ∧
    (storeInArchivist opts [] env).1 = env.closeAndRecv := by
  cases hcr : env.closeAndRecv with
  | error e =>
    constructor <;> simp [storeInArchivist, storeLoop, storeLoopF, hdial, hcr]
  | ok g =>
    constructor <;> simp [storeInArchivist, storeLoop, storeLoopF, hdial, hcr]

/-- C7 witness: concrete empty upload against the all-success oracle. -/
theorem empty_payload_upload_witness :
    (storeInArchivist { enable := true, server := "https://archivist.example" }
        [] archOk).2
      = [Event.archivistDial "https://archivist.example", Event.archivistStoreOpen,
         Event.archivistCloseAndRecv] ∧
    (storeInArchivist { enable := true, server := "https://archivist.example" }
        [] archOk).1 = archOk.closeAndRecv :=
  empty_payload_upload { enable := true, server := "https://archivist.example" }
    archOk rfl

/-- C1 counterexample: with 3 configured signer sources of which 2 fail to
construct and 1 succeeds, the run does NOT succeed — it fails with
"failed to load signers" (the claim asserts resolution succeeds with the
surviving identity); both construction errors are logged. -/
theorem loadErrors_counterexample :
    (runRun roNoPublish [] envTwoFailOne).result
      = Except.error "failed to load signers" ∧
    (runRun roNoPublish [] envTwoFailOne).events
      = [Event.logError "bad source a", Event.logError "bad source b"] :=
  ⟨rfl, rfl⟩

/-- C1 (amended): whenever any signer source fails to construct, the run
fails with "failed to load signers" even if a signer was successfully
constructed; every construction error is individually logged (reported in
aggregate) before the failure, and the collaborator is never invoked. -/
theorem loadErrors_fail_run (ro : RunOptions) (args : List String) (env : RunEnv)
    (h : env.loadSigners.2 ≠ []) :
    (runRun ro args env).result = Except.error "failed to load signers" ∧
    (runRun ro args env).events = env.loadSigners.2.map Event.logError := by
  have hlen : 0 < env.loadSigners.2.length := List.length_pos.mpr h
  constructor <;> simp [runRun, hlen]

/-- C1 witness: the amended claim at the 2-failures-1-success environment. -/
theorem loadErrors_fail_run_witness :
    (runRun roBothPublish [] envTwoFailOne).result
      = Except.error "failed to load signers" ∧
    (runRun roBothPublish [] envTwoFailOne).events
      = envTwoFailOne.loadSigners.2.map Event.logError :=
  loadErrors_fail_run roBothPublish [] envTwoFailOne
    (by simp [envTwoFailOne, envOk])

/-- C3 counterexample: a configuration whose (single) source yields 0
successfully constructed signers fails with "failed to load signers", not
with the no-signer-available error "no signers found" as the claim states
for every configuration yielding 0 signers. -/
theorem signer_cardinality_counterexample :
    (runRun roNoPublish [] envAllFail).result
      = Except.error "failed to load signers" ∧
    "failed to load signers" ≠ "no signers found" :=
  ⟨rfl, by decide⟩

/-- C3 (amended): when no construction errors occurred, cardinality is
enforced: 0 constructed signers fail with "no signers found", 2 or more
fail with "only one signer is supported", and with exactly 1 the pipeline
proceeds with that signer (the collaborator is invoked once the output
file opens, and its error is propagated unchanged). When construction
errors exist, the run instead fails earlier with "failed to load signers". -/
theorem signer_cardinality (ro : RunOptions) (args : List String) (env : RunEnv)
    (hne : env.loadSigners.2 = []) :
    (env.loadSigners.1 = [] →
        (runRun ro args env).result = Except.error "no signers found") ∧
    (env.loadSigners.1.length > 1 →
        (runRun ro args env).result = Except.error "only one signer is supported") ∧
    (∀ s, env.loadSigners.1 = [s] →
        env.loadOutfile ro.outFilePath = Except.ok () →
        Event.execCollaborator ∈ (runRun ro args env).events ∧
        ∀ e, env.witnessRun ro.stepName s ro.tracing args ro.attestations
            ro.workingDir = Except.error e →
          (runRun ro args env).result = Except.error e) := by
  refine ⟨?_, ?_, ?_⟩
  · intro h0
    simp [runRun, hne, h0]
  · intro h2
    simp [runRun, hne, h2]
  · intro s hs hout
    refine ⟨?_, ?_⟩
    · cases hw : env.witnessRun ro.stepName s ro.tracing args ro.attestations
          ro.workingDir with
      | error e => simp [runRun, hne, hs, hout, hw]
      | ok envl =>
        cases hm : env.marshal envl with
        | error e => simp [runRun, hne, hs, hout, hw, hm]
        | ok bytes =>
          cases hwr : env.writeOut bytes with
          | error e => simp [runRun, hne, hs, hout, hw, hm, hwr]
          | ok u =>
            rcases hpair : (if ro.rekorServer ≠ "" then
                rekorPublish env ro.rekorServer s bytes
              else (Except.ok (), [])) with ⟨r, revs⟩
            cases r with
            | error e => simp [runRun, hne, hs, hout, hw, hm, hwr, hpair]
            | ok u2 =>
              rcases harc : archivistStep ro env bytes with ⟨ar, aevs⟩
              cases ar with
              | error e =>
                simp [runRun, hne, hs, hout, hw, hm, hwr, hpair, harc]
              | ok g =>
                simp [runRun, hne, hs, hout, hw, hm, hwr, hpair, harc]
    · intro e he
      simp [runRun, hne, hs, hout, he]

/-- C3 witness: the amended claim at concrete environments with 0, 2 and
exactly 1 constructed signer. -/
theorem signer_cardinality_witness :
    (runRun roNoPublish [] envNoSigners).result
      = Except.error "no signers found" ∧
    (runRun roNoPublish [] envTwoSigners).result
      = Except.error "only one signer is supported" ∧
    Event.execCollaborator ∈ (runRun roNoPublish [] envOk).events :=
  ⟨(signer_cardinality roNoPublish [] envNoSigners rfl).1 rfl,
   (signer_cardinality roNoPublish [] envTwoSigners rfl).2.1 (by decide),
   ((signer_cardinality roNoPublish [] envOk rfl).2.2 7 rfl rfl).1⟩

/-- C5: non-reverting publishing failure — when every step up to and
including the local write succeeded and the run nevertheless does not
succeed (i.e. an attempted publishing step failed), the output sink still
contains exactly the serialized envelope written before the failing step,
and the run reports failure. -/
theorem publish_failure_preserves_write (ro : RunOptions) (args : List String)
    (env : RunEnv) (s : Signer) (envl : Envelope) (bytes : List Nat)
    (hse : env.loadSigners.2 = []) (hs1 : env.loadSigners.1 = [s])
    (hout : env.loadOutfile ro.outFilePath = Except.ok ())
    (hw : env.witnessRun ro.stepName s ro.tracing args ro.attestations
        ro.workingDir = Except.ok envl)
    (hm : env.marshal envl = Except.ok bytes)
    (hwr : env.writeOut bytes = Except.ok ())
    (hfail : (runRun ro args env).result ≠ Except.ok ()) :
    (runRun ro args env).sink = [bytes] ∧
    ∃ m, (runRun ro args env).result = Except.error m := by
  rcases hpair : (if ro.rekorServer ≠ "" then
      rekorPublish env ro.rekorServer s bytes
    else (Except.ok (), [])) with ⟨r, revs⟩
  cases r with
  | error e => simp [runRun, hse, hs1, hout, hw, hm, hwr, hpair]
  | ok u =>
    rcases harc : archivistStep ro env bytes with ⟨ar, aevs⟩
    cases ar with
    | error e => simp [runRun, hse, hs1, hout, hw, hm, hwr, hpair, harc]
    | ok g =>
      exfalso
      apply hfail
      simp [runRun, hse, hs1, hout, hw, hm, hwr, hpair, harc]

/-- C5 witness: with both destinations configured and Rekor failing after
a successful write, the sink keeps the envelope and the run errors. -/
theorem publish_failure_preserves_write_witness :
    (runRun roBothPublish [] envRekorFail).sink = [[1, 2, 3]] ∧
    ∃ m, (runRun roBothPublish [] envRekorFail).result = Except.error m :=
  publish_failure_preserves_write roBothPublish [] envRekorFail 7 5 [1, 2, 3]
    rfl rfl rfl rfl rfl rfl (by intro h; exact Except.noConfusion h)

/-- C6: write durability independent of publishing — when neither the
Rekor endpoint nor the Archivist endpoint is configured and signer
resolution, execution, serialization and the local write all succeed, the
run returns success and the sink contains exactly the marshaled envelope
and nothing else. -/
theorem no_publishing_write_durability (ro : RunOptions) (args : List String)
    (env : RunEnv) (s : Signer) (envl : Envelope) (bytes : List Nat)
    (hse : env.loadSigners.2 = []) (hs1 : env.loadSigners.1 = [s])
    (hout : env.loadOutfile ro.outFilePath = Except.ok ())
    (hw : env.witnessRun ro.stepName s ro.tracing args ro.attestations
        ro.workingDir = Except.ok envl)
    (hm : env.marshal envl = Except.ok bytes)
    (hwr : env.writeOut bytes = Except.ok ())
    (hrk : ro.rekorServer = "") (har : ro.archivistOptions.server = "") :
    (runRun ro args env).result = Except.ok () ∧
    (runRun ro args env).sink = [bytes] := by
  constructor <;>
    simp [runRun, archivistStep, hse, hs1, hout, hw, hm, hwr, hrk, har]

/-- C6 witness: the all-success environment with publishing disabled. -/
theorem no_publishing_write_durability_witness :
    (runRun roNoPublish [] envOk).result = Except.ok () ∧
    (runRun roNoPublish [] envOk).sink = [[1, 2, 3]] :=
  no_publishing_write_durability roNoPublish [] envOk 7 5 [1, 2, 3]
    rfl rfl rfl rfl rfl rfl rfl rfl

-- The events emitted by the Rekor block never touch the Archivist store.
theorem rekorPublish_events_not_archivist (env : RunEnv) (rs : String)
    (s : Signer) (b : List Nat) :
    ∀ ev ∈ (rekorPublish env rs s b).2, ev.isArchivist = false := by
  cases hv : env.verifier s with
  | error e => simp [rekorPublish, hv]
  | ok v =>
    cases hvb : env.verifierBytes v with
    | error e => simp [rekorPublish, hv, hvb]
    | ok pk =>
      cases hrn : env.rekorNew rs with
      | error e => simp [rekorPublish, hv, hvb, hrn, Event.isArchivist]
      | ok u =>
        cases hrs : env.rekorStore b pk with
        | error e => simp [rekorPublish, hv, hvb, hrn, hrs, Event.isArchivist]
        | ok loc => simp [rekorPublish, hv, hvb, hrn, hrs, Event.isArchivist]

/-- C2 counterexample: with both the transparency-log and artifact-store
endpoints configured and the Rekor submission failing, the run returns the
Rekor error and its full event trace contains no Archivist activity at
all — the artifact-store upload is NOT attempted, contradicting the
claimed independence of the two publishing steps. -/
theorem rekor_failure_shortCircuits_counterexample :
    (runRun roBothPublish [] envRekorFail).result
      = Except.error "failed to store artifact in rekor: rekor down" ∧
    (runRun roBothPublish [] envRekorFail).events
      = [Event.execCollaborator, Event.writeSink [1, 2, 3],
         Event.rekorNewClient "https://rekor.example",
         Event.rekorStore [1, 2, 3] [4, 5]] :=
  ⟨rfl, rfl⟩

/-- C2 (amended): publishing short-circuits — whenever the transparency-log
submission fails, the run returns the wrapped Rekor error immediately and
no artifact-store activity occurs, even though the artifact-store endpoint
is configured; only the first publishing failure is reported. -/
theorem rekor_failure_shortCircuits (ro : RunOptions) (args : List String)
    (env : RunEnv) (s : Signer) (envl : Envelope) (bytes pk : List Nat)
    (v : Verifier) (e : String)
    (hse : env.loadSigners.2 = []) (hs1 : env.loadSigners.1 = [s])
    (hout : env.loadOutfile ro.outFilePath = Except.ok ())
    (hw : env.witnessRun ro.stepName s ro.tracing args ro.attestations
        ro.workingDir = Except.ok envl)
    (hm : env.marshal envl = Except.ok bytes)
    (hwr : env.writeOut bytes = Except.ok ())
    (hrk : ro.rekorServer ≠ "") (har : ro.archivistOptions.server ≠ "")
    (hv : env.verifier s = Except.ok v)
    (hvb : env.verifierBytes v = Except.ok pk)
    (hrn : env.rekorNew ro.rekorServer = Except.ok ())
    (hrs : env.rekorStore bytes pk = Except.error e) :
    (runRun ro args env).result
      = Except.error ("failed to store artifact in rekor: " ++ e) ∧
    ∀ ev ∈ (runRun ro args env).events, ev.isArchivist = false := by
  constructor <;>
    simp [runRun, rekorPublish, hse, hs1, hout, hw, hm, hwr, hrk, hv, hvb,
      hrn, hrs, Event.isArchivist]

/-- C2 witness: the amended claim at the concrete Rekor-failure
environment with both destinations configured. -/
theorem rekor_failure_shortCircuits_witness :
    (runRun roBothPublish [] envRekorFail).result
      = Except.error ("failed to store artifact in rekor: " ++ "rekor down") ∧
    ∀ ev ∈ (runRun roBothPublish [] envRekorFail).events,
      ev.isArchivist = false :=
  rekor_failure_shortCircuits roBothPublish [] envRekorFail 7 5 [1, 2, 3]
    [4, 5] 9 "rekor down" rfl rfl rfl rfl rfl rfl (by decide) (by decide)
    rfl rfl rfl rfl

/-- C8: configuration failures abort early — if signer resolution fails
(construction errors, no signer, or more than one signer) the external
attestation/execution collaborator is never invoked; and if opening the
output file fails, the run fails with no network call having been
attempted (no Rekor and no Archivist event). -/
theorem config_failure_ordering (ro : RunOptions) (args : List String)
    (env : RunEnv) :
    ((env.loadSigners.2 ≠ [] ∨ env.loadSigners.1.length ≠ 1) →
        Event.execCollaborator ∉ (runRun ro args env).events) ∧
    ((∃ e, env.loadOutfile ro.outFilePath = Except.error e) →
        (∃ m, (runRun ro args env).result = Except.error m) ∧
        ∀ ev ∈ (runRun ro args env).events, ev.isNetwork = false) := by
  rcases hls : env.loadSigners with ⟨sgs, errs⟩
  constructor
  · intro hbad
    cases errs with
    | cons x xs => simp [runRun, hls]
    | nil =>
      cases sgs with
      | nil => simp [runRun, hls]
      | cons s1 tl =>
        cases tl with
        | cons s2 rest => simp [runRun, hls]
        | nil =>
          exfalso
          rcases hbad with hb | hb
          · exact hb rfl
          · exact hb rfl
  · rintro ⟨e, houtErr⟩
    cases errs with
    | cons x xs =>
      refine ⟨⟨"failed to load signers", by simp [runRun, hls]⟩, ?_⟩
      intro ev hev
      simp [runRun, hls] at hev
      rcases hev with rfl | ⟨a, ha, rfl⟩ <;> rfl
    | nil =>
      cases sgs with
      | nil =>
        refine ⟨⟨"no signers found", by simp [runRun, hls]⟩, ?_⟩
        intro ev hev
        simp [runRun, hls] at hev
        subst hev
        rfl
      | cons s1 tl =>
        cases tl with
        | cons s2 rest =>
          refine ⟨⟨"only one signer is supported", by simp [runRun, hls]⟩, ?_⟩
          intro ev hev
          simp [runRun, hls] at hev
          subst hev
          rfl
        | nil =>
          refine ⟨⟨"failed to open out file: " ++ e,
            by simp [runRun, hls, houtErr]⟩, ?_⟩
          intro ev hev
          simp [runRun, hls, houtErr] at hev

/-- C8 witness: with all signer sources failing the collaborator is never
invoked, and with an unopenable output path the run errors with a
network-free trace. -/
theorem config_failure_ordering_witness :
    Event.execCollaborator ∉ (runRun roNoPublish [] envAllFail).events ∧
    ((∃ m, (runRun roBothPublish [] envBadOutfile).result = Except.error m) ∧
      ∀ ev ∈ (runRun roBothPublish [] envBadOutfile).events,
        ev.isNetwork = false) :=
  ⟨(config_failure_ordering roNoPublish [] envAllFail).1 (Or.inl (by simp [envAllFail, envOk])),
   (config_failure_ordering roBothPublish [] envBadOutfile).2 ⟨"no such dir", rfl⟩⟩

-- Whatever the oracles do, the Archivist upload always begins by dialing
-- the configured server.
theorem storeInArchivist_dial_mem (opts : ArchivistOptions) (b : List Nat)
    (env : ArchivistEnv) :
    Event.archivistDial opts.server ∈ (storeInArchivist opts b env).2 := by
  cases hd : env.dial opts.server with
  | error e => simp [storeInArchivist, hd]
  | ok u =>
    rcases hsl : storeLoop env.sendErr b 0 0 with ⟨o, evs⟩
    cases o with
    | some e => simp [storeInArchivist, hd, hsl]
    | none =>
      cases hcr : env.closeAndRecv with
      | error e => simp [storeInArchivist, hd, hsl, hcr]
      | ok g => simp [storeInArchivist, hd, hsl, hcr]

/-- C10: the Archivist `Enable` flag is never read by the run pipeline —
flipping it never changes the outcome; whether artifact-store publishing
is attempted is determined solely by whether the endpoint string is
non-empty: with an empty endpoint no Archivist activity ever occurs, and
with a non-empty endpoint (here with Rekor disabled and all prior steps
succeeding) the Archivist server is dialed even when the flag is false. -/
theorem archivist_enable_flag_unread (ro : RunOptions) (args : List String)
    (env : RunEnv) :
    (∀ b : Bool,
        runRun { ro with archivistOptions :=
            { ro.archivistOptions with enable := b } } args env
          = runRun ro args env) ∧
    (ro.archivistOptions.server = "" →
        ∀ ev ∈ (runRun ro args env).events, ev.isArchivist = false) ∧
    (∀ s envl bytes, ro.rekorServer = "" →
        env.loadSigners.2 = [] → env.loadSigners.1 = [s] →
        env.loadOutfile ro.outFilePath = Except.ok () →
        env.witnessRun ro.stepName s ro.tracing args ro.attestations
          ro.workingDir = Except.ok envl →
        env.marshal envl = Except.ok bytes →
        env.writeOut bytes = Except.ok () →
        ro.archivistOptions.server ≠ "" →
        Event.archivistDial ro.archivistOptions.server
          ∈ (runRun ro args env).events) := by
  refine ⟨fun b => rfl, ?_, ?_⟩
  · intro hsrv ev hev
    have harcstep : ∀ bs : List Nat, archivistStep ro env bs = (Except.ok (), []) := by
      intro bs
      simp [archivistStep, hsrv]
    rcases hls : env.loadSigners with ⟨sgs, errs⟩
    cases errs with
    | cons x xs =>
      simp [runRun, hls] at hev
      rcases hev with rfl | ⟨a, ha, rfl⟩ <;> rfl
    | nil =>
      cases sgs with
      | nil =>
        simp [runRun, hls] at hev
        subst hev
        rfl
      | cons s1 tl =>
        cases tl with
        | cons s2 rest =>
          simp [runRun, hls] at hev
          subst hev
          rfl
        | nil =>
          cases hout : env.loadOutfile ro.outFilePath with
          | error e => simp [runRun, hls, hout] at hev
          | ok u =>
            cases hw : env.witnessRun ro.stepName s1 ro.tracing args
                ro.attestations ro.workingDir with
            | error e =>
              simp [runRun, hls, hout, hw] at hev
              subst hev
              rfl
            | ok envl =>
              cases hm : env.marshal envl with
              | error e =>
                simp [runRun, hls, hout, hw, hm] at hev
                subst hev
                rfl
              | ok bytes =>
                cases hwr : env.writeOut bytes with
                | error e =>
                  simp [runRun, hls, hout, hw, hm, hwr] at hev
                  rcases hev with rfl | rfl <;> rfl
                | ok u2 =>
                  by_cases hrk : ro.rekorServer = ""
                  · simp [runRun, hls, hout, hw, hm, hwr, hrk, harcstep] at hev
                    rcases hev with rfl | rfl <;> rfl
                  · rcases hpair : rekorPublish env ro.rekorServer s1 bytes
                      with ⟨r, revs⟩
                    have hrevs := rekorPublish_events_not_archivist env
                      ro.rekorServer s1 bytes
                    rw [hpair] at hrevs
                    cases r with
                    | error e2 =>
                      simp [runRun, hls, hout, hw, hm, hwr, hrk, hpair] at hev
                      rcases hev with rfl | rfl | hev
                      · rfl
                      · rfl
                      · exact hrevs ev hev
                    | ok u3 =>
                      simp [runRun, hls, hout, hw, hm, hwr, hrk, hpair,
                        harcstep] at hev
                      rcases hev with rfl | rfl | hev
                      · rfl
                      · rfl
                      · exact hrevs ev hev
  · intro s envl bytes hrk hse hs1 hout hw hm hwr hsrv
    rcases hst : storeInArchivist ro.archivistOptions bytes env.archivist
      with ⟨r2, aevs⟩
    have hdial := storeInArchivist_dial_mem ro.archivistOptions bytes
      env.archivist
    rw [hst] at hdial
    have hdial2 : Event.archivistDial ro.archivistOptions.server ∈ aevs := by
      simpa using hdial
    cases r2 with
    | error e2 =>
      simp [runRun, archivistStep, hse, hs1, hout, hw, hm, hwr, hrk, hsrv,
        hst, hdial2]
    | ok g =>
      simp [runRun, archivistStep, hse, hs1, hout, hw, hm, hwr, hrk, hsrv,
        hst, hdial2]

/-- C10 witness: flipping the flag on the no-publishing configuration is
outcome-identical; its run has no Archivist events; and on the
Archivist-only configuration with the flag false, the server is dialed. -/
theorem archivist_enable_flag_unread_witness :
    runRun { roNoPublish with archivistOptions :=
        { roNoPublish.archivistOptions with enable := true } } [] envOk
      = runRun roNoPublish [] envOk ∧
    (∀ ev ∈ (runRun roNoPublish [] envOk).events, ev.isArchivist = false) ∧
    Event.archivistDial "https://archivist.example"
      ∈ (runRun roArchOnly [] envOk).events :=
  ⟨(archivist_enable_flag_unread roNoPublish [] envOk).1 true,
   (archivist_enable_flag_unread roNoPublish [] envOk).2.1 rfl,
   (archivist_enable_flag_unread roArchOnly [] envOk).2.2 7 5 [1, 2, 3]
     rfl rfl rfl rfl rfl rfl rfl (by decide)⟩

end WitnessRun
